import Mathlib

/-!
Shallow embedding of `src/vector_db.py` (class `SingleStoreRAGSystem`): the
chunk builder `chunk_and_embed`, the ingestion operation `store_document`, and
the retrieval operation `similarity_search`, together with the two persisted
relations `source_documents` and `document_vectors` created by
`setup_database`.

Modelling conventions:
  * Python floats (confidence scores, embedding components, similarity) are
    modelled as `Rat`; the claims under study only compare and add/multiply
    them, never exercise rounding.
  * The external embedding model (`self.embeddings.embed_query`, which may
    raise `EmbeddingError`) is a parameter of type `Embedder`.
  * The store executes each `cursor.execute(INSERT ...)` as its own
    autocommitted statement: the source opens no explicit transaction and the
    client library autocommits by default, so every INSERT is modelled as
    immediately visible (the final `conn.commit()` is then a no-op).
  * `conn.close()` appears only on the straight-line success path of each
    operation (there is no try/finally), which the `connClosed` flag records.
  * `datetime.now().strftime("%Y%m%d_%H%M%S")` is modelled by passing the
    formatted, second-resolution timestamp string `now` as an argument.
-/

namespace VectorDB

/-- JSON-serialisable Python values (dict/list/scalar payloads carried in the
`metadata`, `structure` and `processing_metadata` fields). -/
inductive Json : Type
  | null
  | bool (b : Bool)
  | num (n : Int)
  | str (s : String)
  | arr (xs : List Json)
  | obj (fields : List (String × Json))

mutual

/-- Model of Python `json.dumps` with default separators, as applied at
vector_db.py lines 130-132 and 156. String escaping is elided: the claims
compare serialised values only with each other. -/
def jsonDumps : Json → String
  | .null => "null"
  | .bool true => "true"
  | .bool false => "false"
  | .num n => toString n
  | .str s => "\"" ++ s ++ "\""
  | .arr xs => "[" ++ jsonDumpsList xs ++ "]"
  | .obj fs => "\x7b" ++ jsonDumpsObj fs ++ "\x7d"

/-- Comma-joined serialisation of a JSON array's elements. -/
def jsonDumpsList : List Json → String
  | [] => ""
  | [x] => jsonDumps x
  | x :: y :: xs => jsonDumps x ++ ", " ++ jsonDumpsList (y :: xs)

/-- Comma-joined serialisation of a JSON object's key/value pairs. -/
def jsonDumpsObj : List (String × Json) → String
  | [] => ""
  | [(k, v)] => "\"" ++ k ++ "\": " ++ jsonDumps v
  | (k, v) :: y :: xs => "\"" ++ k ++ "\": " ++ jsonDumps v ++ ", " ++ jsonDumpsObj (y :: xs)

end

/-- One section of a processed document, per the DocPrep interface the source
consumes (fields read at vector_db.py lines 91-101). `page_number` is modelled
as always known. -/
structure DocSection : Type where
  content : String
  index : Nat
  content_type : String
  confidence : Rat
  page_number : Nat
  section_type : String
  metadata : Json

/-- Processed document as returned by `process_document` (fields read at
vector_db.py lines 127-133 and 89). The source attribute `.structure` is
spelled `doc_structure` here because `structure` is a Lean keyword. -/
structure ProcessedDoc : Type where
  title : String
  document_type : String
  raw_content : String
  metadata : Json
  doc_structure : Json
  processing_metadata : Json
  confidence : Rat
  sections : List DocSection

/-- Failure raised by the external embedding model. -/
inductive EmbeddingError : Type
  | mk
deriving DecidableEq

/-- External embedding function `self.embeddings.embed_query`:
text to a fixed-length float vector, or an `EmbeddingError`. -/
def Embedder : Type := String → Except EmbeddingError (List Rat)

/-- Chunk record as assembled by `chunk_and_embed` (vector_db.py lines
93-102). -/
structure Chunk : Type where
  content : String
  embedding : List Rat
  chunk_index : Nat
  content_type : String
  confidence_score : Rat
  page_number : Nat
  section_type : String
  metadata : Json

/-- Loop body of `chunk_and_embed` over `doc.sections` (vector_db.py lines
89-102): each section's content is embedded and one chunk dict is appended, in
section order; an `EmbeddingError` aborts the loop, so no partial list is
returned. Note `chunk_index` is copied from the section's own `index`
attribute (line 96), not from the loop position. -/
def chunkSections (embed : Embedder) : List DocSection → Except EmbeddingError (List Chunk)
  | [] => .ok []
  | s :: ss =>
    match embed s.content with
    | .error e => .error e
    | .ok v =>
      match chunkSections embed ss with
      | .error e => .error e
      | .ok cs =>
          .ok ({ content := s.content
                 embedding := v
                 chunk_index := s.index
                 content_type := s.content_type
                 confidence_score := s.confidence
                 page_number := s.page_number
                 section_type := s.section_type
                 metadata := s.metadata } :: cs)

/-- `chunk_and_embed` (vector_db.py lines 85-104). -/
def chunk_and_embed (embed : Embedder) (doc : ProcessedDoc) : Except EmbeddingError (List Chunk) :=
  chunkSections embed doc.sections

/-- Row of the `source_documents` table (schema at vector_db.py lines 52-64).
`processed_at` defaults server-side and is not modelled. The JSON columns hold
the serialised text exactly as the INSERT bound it. -/
structure SourceRow : Type where
  id : String
  title : String
  source_type : String
  original_content : String
  metadata : String
  document_structure : String
  processing_metadata : String
  extraction_confidence : Rat
deriving DecidableEq

/-- Row of the `document_vectors` table (schema at vector_db.py lines 35-49).
`id` is the AUTO_INCREMENT surrogate key; `created_at` defaults server-side
and is not modelled. The BLOB encoding of the embedding is modelled as the
vector itself. -/
structure VectorRow : Type where
  id : Nat
  content : String
  metadata : String
  embedding : List Rat
  document_id : String
  chunk_index : Nat
  content_type : String
  confidence_score : Rat
  page_number : Nat
  section_type : String
deriving DecidableEq

/-- Visible state of the two tables, plus the next AUTO_INCREMENT value. -/
structure DB : Type where
  source_documents : List SourceRow
  document_vectors : List VectorRow
  next_id : Nat
deriving DecidableEq

/-- Freshly set-up store (`setup_database`, both tables empty). -/
def emptyDB : DB := ⟨[], [], 0⟩

/-- Failures that escape `store_document`. The source defines no
`IngestionError` class; what propagates is either the embedder's
`EmbeddingError` or the driver's IntegrityError when the INSERT at line 119
violates the `source_documents.id` PRIMARY KEY. -/
inductive StoreFailure : Type
  | embedding (e : EmbeddingError)
  | duplicateKey
deriving DecidableEq

deriving instance DecidableEq for Except

/-- Result of one `store_document` call: the visible store afterwards, the
returned document id or the raised failure, and whether `conn.close()`
(line 160) was reached. -/
structure StoreOutcome : Type where
  db : DB
  result : Except StoreFailure String
  connClosed : Bool
deriving DecidableEq

/-- Identifier generation at vector_db.py line 110:
`f"doc_" + datetime.now().strftime("%Y%m%d_%H%M%S")` - a second-resolution
timestamp string, with no collision check. -/
def genDocId (now : String) : String := "doc_" ++ now

/-- Line 109 `if not doc_id:` uses Python truthiness, so both an omitted id
and the empty string trigger generation. -/
def effectiveDocId (doc_id : Option String) (now : String) : String :=
  match doc_id with
  | none => genDocId now
  | some s => if s = "" then genDocId now else s

/-- The `source_documents` INSERT values (vector_db.py lines 119-134): the
three structured payloads are serialised with `json.dumps`. -/
def sourceRow (eid : String) (pd : ProcessedDoc) : SourceRow :=
  { id := eid
    title := pd.title
    source_type := pd.document_type
    original_content := pd.raw_content
    metadata := jsonDumps pd.metadata
    document_structure := jsonDumps pd.doc_structure
    processing_metadata := jsonDumps pd.processing_metadata
    extraction_confidence := pd.confidence }

/-- The `document_vectors` INSERT values for one chunk (vector_db.py lines
140-157): `metadata` is bound to `json.dumps(chunk["metadata"])` at line
156. -/
def chunkRow (eid : String) (rowId : Nat) (c : Chunk) : VectorRow :=
  { id := rowId
    content := c.content
    metadata := jsonDumps c.metadata
    embedding := c.embedding
    document_id := eid
    chunk_index := c.chunk_index
    content_type := c.content_type
    confidence_score := c.confidence_score
    page_number := c.page_number
    section_type := c.section_type }

/-- The per-chunk INSERT loop (vector_db.py lines 139-157), assigning
consecutive AUTO_INCREMENT ids. -/
def insertChunks (eid : String) (db : DB) : List Chunk → DB
  | [] => db
  | c :: cs =>
      insertChunks eid
        { db with
            document_vectors := db.document_vectors ++ [chunkRow eid db.next_id c]
            next_id := db.next_id + 1 } cs

/-- `store_document` (vector_db.py lines 106-162). Control flow of the
source: resolve the id (lines 109-110), parse and prepare (line 113, outside
this model's scope - `pd` is the prepared document), connect (line 115),
INSERT the parent row (line 119), build the chunks (line 137), INSERT each
chunk (lines 139-157), commit and close (lines 159-160), return the id
(line 162). A duplicate primary key makes the parent INSERT raise with
nothing written; an `EmbeddingError` raised at line 137 propagates after the
parent row was already written. Neither error path reaches
`conn.close()`. -/
def store_document (embed : Embedder) (db : DB) (pd : ProcessedDoc)
    (doc_id : Option String) (now : String) : StoreOutcome :=
  let eid := effectiveDocId doc_id now
  if db.source_documents.any (fun r => decide (r.id = eid)) then
    { db := db, result := .error .duplicateKey, connClosed := false }
  else
    let db1 : DB := { db with source_documents := db.source_documents ++ [sourceRow eid pd] }
    match chunk_and_embed embed pd with
    | .error e => { db := db1, result := .error (.embedding e), connClosed := false }
    | .ok chunks =>
        { db := insertChunks eid db1 chunks, result := .ok eid, connClosed := true }

/-- One row of the `similarity_search` result list (vector_db.py lines
205-216): the selected columns are mapped back positionally; `metadata` is
row[1] exactly as fetched, with no `json.loads`. -/
structure SearchResult : Type where
  content : String
  metadata : String
  content_type : String
  confidence_score : Rat
  page_number : Nat
  section_type : String
  similarity : Rat
deriving DecidableEq

/-- The store's `DOT_PRODUCT(vector, vector)` primitive. -/
def dotProduct (a b : List Rat) : Rat := (List.zipWith (· * ·) a b).sum

/-- The WHERE clause composed at vector_db.py lines 188-196:
`confidence_score >= min_confidence`, and - only when `content_types` is
truthy (`if content_types:` at line 193, so neither None nor the empty
list) - `content_type IN (...)`. -/
def passesFilter (min_confidence : Rat) (content_types : Option (List String))
    (r : VectorRow) : Bool :=
  decide (min_confidence ≤ r.confidence_score) &&
    (match content_types with
     | none => true
     | some l => if l.isEmpty then true else decide (r.content_type ∈ l))

/-- Descending insertion step for `ORDER BY similarity DESC`. A new element
is placed before the first existing element whose key is not larger, so
elements with equal keys keep their relative table order. -/
def insertDesc (key : VectorRow → Rat) (x : VectorRow) : List VectorRow → List VectorRow
  | [] => [x]
  | y :: ys => if key y ≤ key x then x :: y :: ys else y :: insertDesc key x ys

/-- Model of `ORDER BY similarity DESC` (vector_db.py line 198): a stable
descending sort. The SQL carries no tie-break clause, so the order among
equal-similarity rows is not specified by the query; this model resolves
ties by table order. -/
def sortDesc (key : VectorRow → Rat) : List VectorRow → List VectorRow
  | [] => []
  | x :: xs => insertDesc key x (sortDesc key xs)

/-- Row-to-dict mapping at vector_db.py lines 205-216. -/
def toSearchResult (qe : List Rat) (r : VectorRow) : SearchResult :=
  { content := r.content
    metadata := r.metadata
    content_type := r.content_type
    confidence_score := r.confidence_score
    page_number := r.page_number
    section_type := r.section_type
    similarity := dotProduct r.embedding qe }

/-- `similarity_search` (vector_db.py lines 164-216): embed the query, filter
by confidence floor and optional content-type allow-list, rank by descending
`DOT_PRODUCT` similarity, `LIMIT k`, and map the fetched rows to result
dicts. Source defaults: `k=5`, `min_confidence=0.7`, `content_types=None`.
An `EmbeddingError` from `embed_query` (line 172) propagates before the store
is touched. -/
def similarity_search (embed : Embedder) (db : DB) (query : String) (k : Nat)
    (min_confidence : Rat) (content_types : Option (List String)) :
    Except EmbeddingError (List SearchResult) :=
  match embed query with
  | .error e => .error e
  | .ok qe =>
      .ok (((sortDesc (fun r => dotProduct r.embedding qe)
          (db.document_vectors.filter (passesFilter min_confidence content_types))).take k).map
        (toSearchResult qe))

/-! ## Helper lemmas -/

/-- Rows written by the chunk-INSERT loop starting from a given
AUTO_INCREMENT value. -/
def chunkRowsFrom (eid : String) : Nat → List Chunk → List VectorRow
  | _, [] => []
  | n, c :: cs => chunkRow eid n c :: chunkRowsFrom eid (n + 1) cs

theorem chunkSections_ok_spec (embed : Embedder) :
    ∀ (ss : List DocSection) (cs : List Chunk), chunkSections embed ss = .ok cs →
      cs.map Chunk.content = ss.map DocSection.content ∧
      cs.map Chunk.chunk_index = ss.map DocSection.index ∧
      cs.map Chunk.metadata = ss.map DocSection.metadata := by
  intro ss
  induction ss with
  | nil =>
      intro cs h
      simp only [chunkSections, Except.ok.injEq] at h
      subst h
      simp
  | cons s ss ih =>
      intro cs h
      simp only [chunkSections] at h
      cases he : embed s.content with
      | error e => rw [he] at h; simp at h
      | ok v =>
          rw [he] at h
          cases hr : chunkSections embed ss with
          | error e => rw [hr] at h; simp at h
          | ok cs0 =>
              rw [hr] at h
              simp only [Except.ok.injEq] at h
              subst h
              obtain ⟨h1, h2, h3⟩ := ih cs0 hr
              simp [h1, h2, h3]

theorem mem_insertDesc {key : VectorRow → Rat} {x y : VectorRow} :
    ∀ {l : List VectorRow}, y ∈ insertDesc key x l ↔ y = x ∨ y ∈ l := by
  intro l
  induction l with
  | nil => simp [insertDesc]
  | cons z zs ih =>
      simp only [insertDesc]
      split
      · simp [List.mem_cons]
      · simp only [List.mem_cons, ih]
        tauto

theorem mem_sortDesc {key : VectorRow → Rat} {y : VectorRow} :
    ∀ {l : List VectorRow}, y ∈ sortDesc key l ↔ y ∈ l := by
  intro l
  induction l with
  | nil => simp [sortDesc]
  | cons x xs ih => simp [sortDesc, mem_insertDesc, ih]

theorem pairwise_insertDesc {key : VectorRow → Rat} {x : VectorRow} {l : List VectorRow}
    (h : l.Pairwise (fun a b => key b ≤ key a)) :
    (insertDesc key x l).Pairwise (fun a b => key b ≤ key a) := by
  induction l with
  | nil => simp [insertDesc]
  | cons z zs ih =>
      rw [List.pairwise_cons] at h
      obtain ⟨hz, hzs⟩ := h
      simp only [insertDesc]
      split
      · rename_i hle
        rw [List.pairwise_cons]
        refine ⟨?_, ?_⟩
        · intro b hb
          rcases List.mem_cons.mp hb with rfl | hb
          · exact hle
          · exact le_trans (hz b hb) hle
        · rw [List.pairwise_cons]
          exact ⟨hz, hzs⟩
      · rename_i hle
        rw [List.pairwise_cons]
        refine ⟨?_, ih hzs⟩
        intro b hb
        rcases mem_insertDesc.mp hb with rfl | hb
        · exact le_of_not_le hle
        · exact hz b hb

theorem pairwise_sortDesc (key : VectorRow → Rat) :
    ∀ (l : List VectorRow), (sortDesc key l).Pairwise (fun a b => key b ≤ key a) := by
  intro l
  induction l with
  | nil => simp [sortDesc]
  | cons x xs ih => exact pairwise_insertDesc ih

theorem mem_search_result {embed : Embedder} {db : DB} {q : String} {k : Nat}
    {mc : Rat} {cts : Option (List String)} {res : List SearchResult} {r : SearchResult}
    (h : similarity_search embed db q k mc cts = .ok res) (hr : r ∈ res) :
    ∃ qe v, embed q = .ok qe ∧ v ∈ db.document_vectors ∧
      passesFilter mc cts v = true ∧ r = toSearchResult qe v := by
  unfold similarity_search at h
  cases he : embed q with
  | error e => rw [he] at h; simp at h
  | ok qe =>
      rw [he] at h
      simp only [Except.ok.injEq] at h
      subst h
      obtain ⟨v, hv, rfl⟩ := List.mem_map.mp hr
      have hv1 := List.mem_of_mem_take hv
      have hv2 := mem_sortDesc.mp hv1
      have hv3 := List.mem_filter.mp hv2
      exact ⟨qe, v, rfl, hv3.1, hv3.2, rfl⟩

theorem insertChunks_vectors (eid : String) :
    ∀ (cs : List Chunk) (db : DB),
      (insertChunks eid db cs).document_vectors
        = db.document_vectors ++ chunkRowsFrom eid db.next_id cs := by
  intro cs
  induction cs with
  | nil => intro db; simp [insertChunks, chunkRowsFrom]
  | cons c cs ih =>
      intro db
      simp only [insertChunks, chunkRowsFrom]
      rw [ih]
      simp

theorem chunkRowsFrom_metadata (eid : String) :
    ∀ (cs : List Chunk) (n : Nat),
      (chunkRowsFrom eid n cs).map VectorRow.metadata
        = cs.map (fun c => jsonDumps c.metadata) := by
  intro cs
  induction cs with
  | nil => intro n; simp [chunkRowsFrom]
  | cons c cs ih => intro n; simp [chunkRowsFrom, chunkRow, ih]

/-! ## Concrete fixtures -/

/-- Embedder mapping every text to the one-dimensional vector [1]. -/
def okEmbed : Embedder := fun _ => .ok [1]

/-- Embedder failing on the exact text `bad`, embedding everything else
to [1]. -/
def failOn (bad : String) : Embedder :=
  fun s => if s = bad then .error .mk else .ok [1]

/-- Section fixture with the given content, index field, content type and
confidence. -/
def mkSection (c : String) (i : Nat) (ct : String) (conf : Rat) : DocSection :=
  ⟨c, i, ct, conf, 0, "body", .null⟩

/-- Processed-document fixture around a section list. -/
def mkDoc (ss : List DocSection) : ProcessedDoc :=
  ⟨"title", "pdf", "raw", .null, .null, .null, 1, ss⟩

/-- Two sections whose own `index` fields are 5 and 7, not their positions
0 and 1. -/
def docIdx57 : ProcessedDoc :=
  mkDoc [mkSection "a" 5 "text" 1, mkSection "b" 7 "text" 1]

/-- The chunk list `chunk_and_embed okEmbed docIdx57` produces. -/
def chunks57 : List Chunk :=
  [⟨"a", [1], 5, "text", 1, 0, "body", .null⟩,
   ⟨"b", [1], 7, "text", 1, 0, "body", .null⟩]

/-- One-section document whose only section content is "s0". -/
def pdFail1 : ProcessedDoc := mkDoc [mkSection "s0" 0 "text" 1]

/-- Three-section document with contents "a", "b", "c" at indices 0, 1, 2. -/
def pd3 : ProcessedDoc :=
  mkDoc [mkSection "a" 0 "text" 1, mkSection "b" 1 "table" 1, mkSection "c" 2 "text" 1]

/-- One-section document that every fixture embedder can embed. -/
def pdOk : ProcessedDoc := mkDoc [mkSection "hello" 0 "text" 1]

/-- First of two ingestions with `doc_id` omitted during the same clock
second. -/
def c7_first : StoreOutcome := store_document okEmbed emptyDB pdOk none "20250101_120000"

/-- Second ingestion with `doc_id` omitted during the same clock second,
against the store the first one produced. -/
def c7_second : StoreOutcome := store_document okEmbed c7_first.db pdOk none "20250101_120000"

/-! ## Claim theorems -/

/-- C1 (code_bug evidence): ingestion is not atomic. On a one-section
document whose section fails to embed, `store_document` reports failure
(an `EmbeddingError`), yet the `source_documents` row written before
`chunk_and_embed` ran stays visible: 1 parent row and 0 chunk rows, where
the claim requires 0 rows from a failed attempt. -/
theorem c1_failed_ingest_leaves_parent_row :
    (store_document (failOn "s0") emptyDB pdFail1 (some "d1") "20250101_120000").result
        = .error (.embedding .mk) ∧
    ((store_document (failOn "s0") emptyDB pdFail1 (some "d1") "20250101_120000").db.source_documents.map
        SourceRow.id) = ["d1"] ∧
    (store_document (failOn "s0") emptyDB pdFail1 (some "d1") "20250101_120000").db.document_vectors
        = [] :=
  ⟨rfl, rfl, rfl⟩

/-- C2 (counterexample): `chunk_and_embed` copies `section.index` into
`chunk_index` (vector_db.py line 96) instead of using the position in the
section sequence: on a document whose two sections carry index fields 5 and
7, the emitted chunk_index values are [5, 7], not the positions [0, 1]. -/
theorem c2_chunk_index_not_positional :
    (chunk_and_embed okEmbed docIdx57).map (List.map Chunk.chunk_index) = .ok [5, 7] ∧
    ([5, 7] : List Nat) ≠ [0, 1] :=
  ⟨rfl, by decide⟩

/-- C2 (amended): `chunk_and_embed` emits one chunk per section in input
order, with each chunk's content and chunk_index copied from the section
itself - chunk_index equals the section's own `index` field, so the stored
values form [0, N-1] exactly when the input index fields do. -/
theorem c2_amended_order_preserved_index_copied (embed : Embedder) (doc : ProcessedDoc)
    (chunks : List Chunk) (h : chunk_and_embed embed doc = .ok chunks) :
    chunks.map Chunk.content = doc.sections.map DocSection.content ∧
    chunks.map Chunk.chunk_index = doc.sections.map DocSection.index := by
  obtain ⟨h1, h2, _⟩ := chunkSections_ok_spec embed doc.sections chunks h
  exact ⟨h1, h2⟩

/-- C2 witness: the amended theorem applied to the concrete two-section
document. -/
theorem c2_amended_witness :
    chunks57.map Chunk.content = docIdx57.sections.map DocSection.content ∧
    chunks57.map Chunk.chunk_index = docIdx57.sections.map DocSection.index :=
  c2_amended_order_preserved_index_copied okEmbed docIdx57 chunks57 rfl

/-- C3 (code_bug evidence): embedding failure on section 2 of 3 aborts the
chunk build with no partial chunk list, and the enclosing `store_document`
reports failure - but the store is left with 1 `source_documents` row for
the document, not the 0 rows the claim requires, because the parent INSERT
ran before `chunk_and_embed`. -/
theorem c3_embed_failure_leaves_parent_row :
    chunk_and_embed (failOn "b") pd3 = .error .mk ∧
    (store_document (failOn "b") emptyDB pd3 (some "d3") "20250101_120000").result
        = .error (.embedding .mk) ∧
    ((store_document (failOn "b") emptyDB pd3 (some "d3") "20250101_120000").db.source_documents.filter
        (fun r => decide (r.id = "d3"))).length = 1 ∧
    ((store_document (failOn "b") emptyDB pd3 (some "d3") "20250101_120000").db.document_vectors.filter
        (fun r => decide (r.document_id = "d3"))).length = 0 :=
  ⟨rfl, rfl, rfl, rfl⟩

/-- C7 (code_bug evidence): the generated identifier is the second-resolution
timestamp string, so two ingestions with `doc_id` omitted in the same second
generate the same id; the second one then fails with the store's
duplicate-primary-key error (the source defines no `IngestionError` and
performs no collision check). -/
theorem c7_timestamp_id_collision :
    genDocId "20250101_120000" = "doc_20250101_120000" ∧
    c7_first.result = .ok "doc_20250101_120000" ∧
    c7_second.result = .error .duplicateKey :=
  ⟨rfl, rfl, rfl⟩

/-- C8 (code_bug evidence): `store_document` reaches `conn.close()` only on
its success path; when embedding fails after the connection was opened, the
operation raises with the connection still held, violating
release-on-every-exit-path. -/
theorem c8_connection_not_released_on_error :
    (store_document (failOn "s0") emptyDB pdFail1 (some "d8") "20250101_120000").connClosed
        = false ∧
    (store_document okEmbed emptyDB pdOk (some "d9") "20250101_120000").connClosed = true :=
  ⟨rfl, rfl⟩

/-- C4: every result returned by `similarity_search` has
`confidence_score >= min_confidence`, and when a (non-empty, per the spec's
precondition on allow-lists) `content_types` list is given, its
`content_type` is a member of that list. -/
theorem c4_filter_correctness (embed : Embedder) (db : DB) (q : String) (k : Nat)
    (mc : Rat) (cts : Option (List String)) (res : List SearchResult) (r : SearchResult)
    (h : similarity_search embed db q k mc cts = .ok res) (hr : r ∈ res) :
    mc ≤ r.confidence_score ∧ ∀ l, cts = some l → l ≠ [] → r.content_type ∈ l := by
  obtain ⟨qe, v, _, _, hp, rfl⟩ := mem_search_result h hr
  simp only [passesFilter, Bool.and_eq_true, decide_eq_true_eq] at hp
  refine ⟨hp.1, ?_⟩
  intro l hl hlne
  subst hl
  have h2 : (if l.isEmpty = true then true else decide (v.content_type ∈ l)) = true := hp.2
  rw [if_neg (by simp [List.isEmpty_iff, hlne])] at h2
  exact of_decide_eq_true h2

/-- Single stored row passing the confidence floor and the allow-list. -/
def rowW : VectorRow := ⟨0, "w", "null", [1], "dw", 0, "text", 1, 0, "body"⟩

/-- Store holding only `rowW`. -/
def dbW : DB := ⟨[], [rowW], 1⟩

/-- C4 witness: the filter-correctness theorem applied to a concrete
one-row store searched with `min_confidence = 0` and
`content_types = ["text"]`. -/
theorem c4_filter_correctness_witness :
    (0 : Rat) ≤ (toSearchResult [1] rowW).confidence_score ∧
    ∀ l, (some ["text"] : Option (List String)) = some l → l ≠ [] →
      (toSearchResult [1] rowW).content_type ∈ l :=
  c4_filter_correctness okEmbed dbW "q" 5 0 (some ["text"])
    [toSearchResult [1] rowW] (toSearchResult [1] rowW) rfl (by simp)

/-- Two rows with identical embeddings (hence tied similarity), stored with
the larger `chunk_index` 5 first and `chunk_index` 2 second. -/
def rowT1 : VectorRow := ⟨0, "first", "null", [1], "docT", 5, "text", 1, 0, "body"⟩

/-- Companion row of `rowT1` with equal similarity and smaller
`chunk_index`. -/
def rowT2 : VectorRow := ⟨1, "second", "null", [1], "docT", 2, "text", 1, 0, "body"⟩

/-- Store holding the two tied rows in table order `rowT1`, `rowT2`. -/
def dbTie : DB := ⟨[], [rowT1, rowT2], 2⟩

/-- C5 (counterexample): the SQL has no tie-break clause, so equal-similarity
rows are not ordered by ascending chunk_index: on two tied rows stored with
chunk_index 5 before chunk_index 2, the result keeps that order - the row
with chunk_index 5 comes first, where the claim requires the chunk_index-2
row first. -/
theorem c5_no_tiebreak_counterexample :
    similarity_search okEmbed dbTie "q" 5 0 none
        = .ok [toSearchResult [1] rowT1, toSearchResult [1] rowT2] ∧
    (toSearchResult [1] rowT1).similarity = (toSearchResult [1] rowT2).similarity ∧
    rowT1.chunk_index = 5 ∧ rowT2.chunk_index = 2 := by
  refine ⟨?_, rfl, rfl, rfl⟩
  simp only [similarity_search, okEmbed, dbTie, sortDesc, insertDesc, passesFilter,
    List.filter, rowT1, rowT2]
  norm_num [dotProduct]

/-- C5 (amended): results are sorted by descending similarity; the source
imposes no chunk_index/document_id tie-break (those columns are not even
selected), so equal-similarity results simply keep the store's row order. -/
theorem c5_amended_sorted_by_descending_similarity (embed : Embedder) (db : DB)
    (q : String) (k : Nat) (mc : Rat) (cts : Option (List String))
    (res : List SearchResult) (h : similarity_search embed db q k mc cts = .ok res) :
    res.Pairwise (fun a b => b.similarity ≤ a.similarity) := by
  unfold similarity_search at h
  cases he : embed q with
  | error e => rw [he] at h; simp at h
  | ok qe =>
      rw [he] at h
      simp only [Except.ok.injEq] at h
      subst h
      have hs := pairwise_sortDesc (fun r => dotProduct r.embedding qe)
        (db.document_vectors.filter (passesFilter mc cts))
      have htk := List.Pairwise.sublist (List.take_sublist k _) hs
      rw [List.pairwise_map]
      exact htk

/-- C5 witness: the descending-similarity theorem applied to the concrete
one-row store. -/
theorem c5_amended_witness :
    ([toSearchResult [1] rowW] : List SearchResult).Pairwise
      (fun a b => b.similarity ≤ a.similarity) :=
  c5_amended_sorted_by_descending_similarity okEmbed dbW "q" 5 0 none
    [toSearchResult [1] rowW] rfl

/-- C6: with `k >= 1`, `similarity_search` returns at most `k` results, and
when no stored chunk passes the filter it returns the empty list as an
ordinary (non-error) outcome. -/
theorem c6_topk_bound_and_empty_ok (embed : Embedder) (db : DB) (q : String) (k : Nat)
    (mc : Rat) (cts : Option (List String)) (res : List SearchResult)
    (hk : 1 ≤ k) (h : similarity_search embed db q k mc cts = .ok res) :
    res.length ≤ k ∧
      (db.document_vectors.filter (passesFilter mc cts) = [] → res = []) := by
  unfold similarity_search at h
  cases he : embed q with
  | error e => rw [he] at h; simp at h
  | ok qe =>
      rw [he] at h
      simp only [Except.ok.injEq] at h
      subst h
      constructor
      · rw [List.length_map]
        exact List.length_take_le k _
      · intro hf
        rw [hf]
        simp [sortDesc]

/-- C6 witness: a search of the empty store with `k = 1` succeeds with the
empty result list. -/
theorem c6_topk_witness :
    ([] : List SearchResult).length ≤ 1 ∧
      (emptyDB.document_vectors.filter (passesFilter 0 none) = [] →
        ([] : List SearchResult) = []) :=
  c6_topk_bound_and_empty_ok okEmbed emptyDB "q" 1 0 none [] (by decide) rfl

/-- C9: passing `content_types = []` behaves exactly like passing None:
`if content_types:` at vector_db.py line 193 is false for the empty list, so
no content-type clause is added and the filter is silently disabled. -/
theorem c9_empty_allowlist_same_as_none (embed : Embedder) (db : DB) (q : String)
    (k : Nat) (mc : Rat) :
    similarity_search embed db q k mc (some [])
      = similarity_search embed db q k mc none := rfl

/-- C10: chunk metadata is written through `json.dumps` (line 156), and a
search result's `metadata` is the column value exactly as fetched (line 209,
no `json.loads`): every chunk row a successful ingest adds carries the
serialised text of its section's metadata, and every search result's
`metadata` is the stored column value itself - so store-then-search yields
the serialisation, never the original map. -/
theorem c10_metadata_serialised_never_parsed :
    (∀ (embed : Embedder) (db : DB) (pd : ProcessedDoc) (did : Option String)
        (now eid : String),
        (store_document embed db pd did now).result = .ok eid →
        ((store_document embed db pd did now).db.document_vectors.drop
            db.document_vectors.length).map VectorRow.metadata
          = pd.sections.map (fun s => jsonDumps s.metadata)) ∧
    (∀ (embed : Embedder) (db : DB) (q : String) (k : Nat) (mc : Rat)
        (cts : Option (List String)) (res : List SearchResult) (r : SearchResult),
        similarity_search embed db q k mc cts = .ok res → r ∈ res →
        ∃ v, v ∈ db.document_vectors ∧ r.metadata = v.metadata) := by
  constructor
  · intro embed db pd did now eid h
    by_cases hd : db.source_documents.any
        (fun r => decide (r.id = effectiveDocId did now)) = true
    · have hres : (store_document embed db pd did now).result = .error .duplicateKey := by
        simp [store_document, hd]
      rw [hres] at h
      simp at h
    · cases hc : chunk_and_embed embed pd with
      | error e =>
          have hres : (store_document embed db pd did now).result
              = .error (.embedding e) := by
            simp [store_document, hd, hc]
          rw [hres] at h
          simp at h
      | ok chunks =>
          have hvec : (store_document embed db pd did now).db.document_vectors
              = db.document_vectors
                ++ chunkRowsFrom (effectiveDocId did now) db.next_id chunks := by
            simp [store_document, hd, hc, insertChunks_vectors]
          rw [hvec, List.drop_left, chunkRowsFrom_metadata]
          have h3 := (chunkSections_ok_spec embed pd.sections chunks hc).2.2
          calc chunks.map (fun c => jsonDumps c.metadata)
              = (chunks.map Chunk.metadata).map jsonDumps := by
                rw [List.map_map]; rfl
            _ = (pd.sections.map DocSection.metadata).map jsonDumps := by rw [h3]
            _ = pd.sections.map (fun s => jsonDumps s.metadata) := by
                rw [List.map_map]; rfl
  · intro embed db q k mc cts res r h hr
    obtain ⟨qe, v, _, hv, _, rfl⟩ := mem_search_result h hr
    exact ⟨v, hv, rfl⟩

/-- One-section document whose section metadata is a non-trivial JSON map. -/
def pdMeta : ProcessedDoc :=
  mkDoc [⟨"m0", 0, "text", 1, 0, "body", .obj [("k", .num 1)]⟩]

/-- C10 witness: both halves of the metadata theorem applied to concrete
inputs - an ingest of `pdMeta` into the empty store, and a search over the
one-row store `dbW`. -/
theorem c10_metadata_witness :
    ((store_document okEmbed emptyDB pdMeta (some "dm") "t").db.document_vectors.drop
        emptyDB.document_vectors.length).map VectorRow.metadata
      = pdMeta.sections.map (fun s => jsonDumps s.metadata) ∧
    (∃ v, v ∈ dbW.document_vectors ∧ (toSearchResult [1] rowW).metadata = v.metadata) :=
  ⟨c10_metadata_serialised_never_parsed.1 okEmbed emptyDB pdMeta (some "dm") "t" "dm" rfl,
   c10_metadata_serialised_never_parsed.2 okEmbed dbW "q" 5 0 none
     [toSearchResult [1] rowW] (toSearchResult [1] rowW) rfl (by simp)⟩

end VectorDB
